import Mathlib

/-!
Verification of the stream-server core against its natural-language
specification.

The development shallowly embeds the parts of the Go sources that the
checked properties are about:

* `internal/conf` — the configuration data model and the validation rules
  exercised by `TestConfErrors` (the validator itself is not among the
  staged sources, so it is modelled from the spec, see `confValidate`);
* `internal/core/core.go` — the `closeResources` reload diff that decides
  whether the path manager survives a configuration reload;
* `internal/core/rtsp_session.go` — the RTSP session's handling of
  authentication and "no one is publishing" failures;
* the WebRTC session (`session.runInner` / `runPublish` / `runRead` /
  `writeAnswer` / `new`) — reply discipline and failure handling;
* the AV1 format processor (`formatProcessorAV1.ProcessRTPPacket`) and the
  WebRTC per-unit reader callbacks installed by `findVideoTrack`.

Effects that Go performs through channels, sleeps or pointers are made
explicit: a handler returns a record carrying the delay it slept, the
status code it answered with, and whether it handed a non-nil error back
to the protocol library (which tears the session down).  Fallible
collaborators outside the embedded code (decoders, encoders, ICE
gathering, peer-connection steps) are supplied as explicit outcome
parameters, so every theorem quantifies over all of their behaviours.
-/

/-! ## Configuration data model (internal/conf) -/

/-- An authentication method of `authMethods` (`basic` or `digest`). -/
inductive AuthMethod where
  | basic
  | digest
  deriving DecidableEq, Repr

/-- The per-path slice of the configuration that the embedded checks look at.
Reload comparisons (`reflect.DeepEqual`) only need decidable equality. -/
structure PathConf where
  source : String
  record : Bool
  deriving DecidableEq, Repr

/-- The slice of `conf.Conf` used by `Core.closeResources` to decide the fate
of the logger, the metrics server and the path manager, together with the
fields the validation rules of `conf.Load` inspect. -/
structure Conf where
  logLevel : Nat
  logDestinations : List String
  logFile : String
  metrics : Bool
  metricsAddress : String
  readTimeout : Nat
  writeTimeout : Nat
  writeQueueSize : Nat
  udpMaxPayloadSize : Nat
  externalAuthenticationURL : String
  rtspAddress : String
  authMethods : List AuthMethod
  paths : List (String × PathConf)
  deriving DecidableEq, Repr

/-- Whether `n` is a power of two, as the queue-size check computes it. -/
def isPowerOfTwo (n : Nat) : Bool :=
  decide (n ≠ 0) && (n &&& (n - 1) == 0)

/-- The three path names that act as catch-all wildcards and are aliases of
one another: `all`, `all_others` and the regex `~^.*$`. -/
def isWildcardPathName (name : String) : Bool :=
  name == "all" || name == "all_others" || name == "~^.*$"

/-- How many wildcard path names a path set contains. -/
def wildcardCount (paths : List (String × PathConf)) : Nat :=
  (paths.filter (fun p => isWildcardPathName p.1)).length

/-- Modelled from the spec: the validation performed by `conf.Load` is not
among the staged sources (only `conf_test.go` is).  The spec states that
`writeQueueSize` "must be a power of two (enforced at config load)", that
"digest cannot coexist with an external verifier URL (rejected at config
load)", and that "`all`, `all_others`, and `~^.*$` are aliases and cannot
coexist"; `TestConfErrors` fixes the error messages and shows the checks are
applied to the whole configuration, first failure reported.  Checks that no
claim depends on are elided. -/
def confValidate (c : Conf) : Except String Unit :=
  if !(isPowerOfTwo c.writeQueueSize) then
    .error "\'writeQueueSize\' must be a power of two"
  else if c.udpMaxPayloadSize > 1472 then
    .error "\'udpMaxPayloadSize\' must be less than 1472"
  else if decide (c.externalAuthenticationURL ≠ "") && decide (AuthMethod.digest ∈ c.authMethods) then
    .error "\'externalAuthenticationURL\' can\'t be used when \'digest\' is in authMethods"
  else if wildcardCount c.paths > 1 then
    .error "all_others, all and \'~^.*$\' are aliases"
  else
    .ok ()

/-- The capacity of an async writer queue built from a loaded configuration:
`core.go` hands `conf.WriteQueueSize` to every server, and the WebRTC session
constructs its reader queue with `asyncwriter.New(s.writeQueueSize, s)`. -/
def asyncWriterQueueCapacity (c : Conf) : Nat :=
  c.writeQueueSize

/-! ## Core.closeResources reload diff (internal/core/core.go) -/

/-- The `closeLogger` flag of `Core.closeResources`: `newConf == nil ||
newConf.LogLevel != p.conf.LogLevel || !DeepEqual(LogDestinations) ||
newConf.LogFile != p.conf.LogFile`. -/
def closeLogger : Option Conf → Conf → Bool
  | none, _ => true
  | some nc, cur =>
      decide (nc.logLevel ≠ cur.logLevel) ||
      decide (nc.logDestinations ≠ cur.logDestinations) ||
      decide (nc.logFile ≠ cur.logFile)

/-- The `closeMetrics` flag of `Core.closeResources`. -/
def closeMetrics (newConf : Option Conf) (cur : Conf) : Bool :=
  match newConf with
  | none => true
  | some nc =>
      decide (nc.metrics ≠ cur.metrics) ||
      decide (nc.metricsAddress ≠ cur.metricsAddress) ||
      decide (nc.readTimeout ≠ cur.readTimeout) ||
      closeLogger (some nc) cur

/-- The `closePathManager` flag of `Core.closeResources` (core.go:648-658). -/
def closePathManager (newConf : Option Conf) (cur : Conf) : Bool :=
  match newConf with
  | none => true
  | some nc =>
      decide (nc.logLevel ≠ cur.logLevel) ||
      decide (nc.externalAuthenticationURL ≠ cur.externalAuthenticationURL) ||
      decide (nc.rtspAddress ≠ cur.rtspAddress) ||
      decide (nc.authMethods ≠ cur.authMethods) ||
      decide (nc.readTimeout ≠ cur.readTimeout) ||
      decide (nc.writeTimeout ≠ cur.writeTimeout) ||
      decide (nc.writeQueueSize ≠ cur.writeQueueSize) ||
      decide (nc.udpMaxPayloadSize ≠ cur.udpMaxPayloadSize) ||
      closeMetrics (some nc) cur ||
      closeLogger (some nc) cur

/-- What `Core.reloadConf` does to the path manager. -/
inductive PathManagerAction where
  /-- kept alive and `ReloadPathConfs(newConf.Paths)` invoked on it -/
  | reloadPathConfs
  /-- kept alive untouched (path sets equal) -/
  | keep
  /-- closed by `closeResources` and recreated by `createResources` -/
  | closeAndRecreate
  deriving DecidableEq, Repr

/-- The effect of `Core.reloadConf(newConf)` on the path manager: with flag
`closePathManager` set the manager is closed (core.go:885-892) and, being
nil, recreated by `createResources` (core.go:331); otherwise it survives and
`ReloadPathConfs` runs exactly when the path sets differ (core.go:659-661). -/
def reloadConfPathManagerAction (nc cur : Conf) : PathManagerAction :=
  if closePathManager (some nc) cur then
    .closeAndRecreate
  else if decide (nc.paths ≠ cur.paths) then
    .reloadPathConfs
  else
    .keep

/-! ## RTSP session failure handling (internal/core/rtsp_session.go) -/

/-- The fixed anti-brute-force back-off, `pauseAfterAuthError = 2 *
time.Second` (rtsp_session.go:18-20), in nanoseconds. -/
def pauseAfterAuthError : Nat := 2 * 1000000000

/-- The typed failures that `OnReadPublisherAnnounce` /
`OnReadPublisherSetupPlay` replies can carry, as the session's `switch`
distinguishes them.  The auth variants carry the prepared response's status
code. -/
inductive ReadPublisherErr where
  | authNotCritical (responseStatus : Nat)
  | authCritical (responseStatus : Nat) (message : String)
  | noOnePublishing
  | other
  deriving DecidableEq, Repr

/-- The observable outcome of a session handler: the nanoseconds it slept
before answering, the status code of the response, and whether a non-nil
error was handed back to the protocol library (which closes the session). -/
structure SessionReply where
  delay : Nat
  status : Nat
  errReturned : Bool
  deriving DecidableEq, Repr

/-- The error branch of `rtspSession.OnAnnounce` (rtsp_session.go:132-147):
not-critical auth failures answer immediately with a nil error; critical
ones sleep `pauseAfterAuthError` first and return a non-nil error; anything
else is a 400. -/
def rtspOnAnnounceErrReply : ReadPublisherErr → SessionReply
  | .authNotCritical resp => { delay := 0, status := resp, errReturned := false }
  | .authCritical resp _ => { delay := pauseAfterAuthError, status := resp, errReturned := true }
  | .noOnePublishing => { delay := 0, status := 400, errReturned := true }
  | .other => { delay := 0, status := 400, errReturned := true }

/-- The error branch of `rtspSession.OnSetup` in the play states
(rtsp_session.go:193-214): like `OnAnnounce`, plus `NoOnePublishing`
answering 404 Not Found with a non-nil error. -/
def rtspOnSetupErrReply : ReadPublisherErr → SessionReply
  | .authNotCritical resp => { delay := 0, status := resp, errReturned := false }
  | .authCritical resp _ => { delay := pauseAfterAuthError, status := resp, errReturned := true }
  | .noOnePublishing => { delay := 0, status := 404, errReturned := true }
  | .other => { delay := 0, status := 400, errReturned := true }

/-! ## WebRTC session (webrtc package: session.go) -/

/-- How the path manager's `AddPublisher` / `AddReader` reply can fail, as
the WebRTC session distinguishes the cases: a `defs.AuthenticationError`, an
error whose message starts with "no one is publishing", or anything else. -/
inductive PathManagerErr where
  | authenticationErr
  | noOnePublishing
  | otherErr
  deriving DecidableEq, Repr

/-- The error branch of `session.runPublish` after `AddPublisher` fails: an
authentication error sleeps `pauseAfterAuthError` and yields 401, anything
else yields 400 immediately. -/
def webrtcRunPublishErrReply : PathManagerErr → SessionReply
  | .authenticationErr =>
      { delay := pauseAfterAuthError, status := 401, errReturned := true }
  | _ => { delay := 0, status := 400, errReturned := true }

/-- The error branch of `session.runRead` after `AddReader` fails: an
authentication error sleeps `pauseAfterAuthError` and yields 401, a "no one
is publishing" error yields 404 immediately, anything else 400. -/
def webrtcRunReadErrReply : PathManagerErr → SessionReply
  | .authenticationErr =>
      { delay := pauseAfterAuthError, status := 401, errReturned := true }
  | .noOnePublishing => { delay := 0, status := 404, errReturned := true }
  | .otherErr => { delay := 0, status := 400, errReturned := true }

/-- The outcomes of the collaborator steps `session.runPublish` performs, in
program order.  `addPublisherErr = none` means the path manager accepted the
publisher. -/
structure PublishEnv where
  addPublisherErr : Option PathManagerErr
  generateICEServersOk : Bool
  pcStartOk : Bool
  sdpUnmarshalOk : Bool
  trackCountOk : Bool
  createFullAnswerOk : Bool
  waitUntilConnectedOk : Bool
  gatherIncomingTracksOk : Bool
  startPublisherOk : Bool
  deriving DecidableEq, Repr

/-- The outcomes of the collaborator steps `session.runRead` performs, in
program order. -/
structure ReadEnv where
  addReaderErr : Option PathManagerErr
  generateICEServersOk : Bool
  pcStartOk : Bool
  hasSupportedTrack : Bool
  setupOutgoingTracksOk : Bool
  createFullAnswerOk : Bool
  waitUntilConnectedOk : Bool
  videoSetupOk : Bool
  audioSetupOk : Bool
  deriving DecidableEq, Repr

/-- What `runInner2` produced: the status code it returned (`0` meaning "no
error response is to be sent") and whether `writeAnswer` pushed the SDP
answer to `req.res` along the way. -/
structure InnerOutcome where
  errStatusCode : Nat
  answerSent : Bool
  deriving DecidableEq, Repr

/-- `session.runPublish`: every failure before `writeAnswer` returns a
nonzero status code without an answer; `writeAnswer` sends the answer, and
every return after it (wait-until-connected, track gathering,
`StartPublisher`, the final select on disconnect/ctx) carries status 0. -/
def runPublish (env : PublishEnv) : InnerOutcome :=
  match env.addPublisherErr with
  | some e => { errStatusCode := (webrtcRunPublishErrReply e).status, answerSent := false }
  | none =>
    if !env.generateICEServersOk then { errStatusCode := 500, answerSent := false }
    else if !env.pcStartOk then { errStatusCode := 400, answerSent := false }
    else if !env.sdpUnmarshalOk then { errStatusCode := 400, answerSent := false }
    else if !env.trackCountOk then { errStatusCode := 406, answerSent := false }
    else if !env.createFullAnswerOk then { errStatusCode := 400, answerSent := false }
    else if !env.waitUntilConnectedOk then { errStatusCode := 0, answerSent := true }
    else if !env.gatherIncomingTracksOk then { errStatusCode := 0, answerSent := true }
    else if !env.startPublisherOk then { errStatusCode := 0, answerSent := true }
    else { errStatusCode := 0, answerSent := true }

/-- `session.runRead`: every failure before `writeAnswer` returns a nonzero
status code without an answer; after `writeAnswer` every return (wait, track
setup, the final select on disconnect/writer error/ctx) carries status 0. -/
def runRead (env : ReadEnv) : InnerOutcome :=
  match env.addReaderErr with
  | some e => { errStatusCode := (webrtcRunReadErrReply e).status, answerSent := false }
  | none =>
    if !env.generateICEServersOk then { errStatusCode := 500, answerSent := false }
    else if !env.pcStartOk then { errStatusCode := 400, answerSent := false }
    else if !env.hasSupportedTrack then { errStatusCode := 400, answerSent := false }
    else if !env.setupOutgoingTracksOk then { errStatusCode := 400, answerSent := false }
    else if !env.createFullAnswerOk then { errStatusCode := 400, answerSent := false }
    else if !env.waitUntilConnectedOk then { errStatusCode := 0, answerSent := true }
    else if !env.videoSetupOk then { errStatusCode := 0, answerSent := true }
    else if !env.audioSetupOk then { errStatusCode := 0, answerSent := true }
    else { errStatusCode := 0, answerSent := true }

/-- `session.runInner2`: dispatch on `req.publish`. -/
def runInner2 (publish : Bool) (penv : PublishEnv) (renv : ReadEnv) : InnerOutcome :=
  if publish then runPublish penv else runRead renv

/-- Replies pushed to `req.res` by the session goroutine: the answer from
`writeAnswer` plus the error response `runInner` sends iff `runInner2`
returned a nonzero status code. -/
def repliesSent (o : InnerOutcome) : Nat :=
  (if o.answerSent then 1 else 0) + (if decide (o.errStatusCode ≠ 0) then 1 else 0)

/-- Total terminal replies the requester of `session.new` observes: when the
session's context is cancelled before the hand-off on `chNew`, `new` returns
the terminated error itself (one reply); otherwise the hand-off succeeds and
the requester receives whatever the session goroutine pushes to `req.res`. -/
def sessionNewReplies (ctxDoneBeforeHandoff publish : Bool)
    (penv : PublishEnv) (renv : ReadEnv) : Nat :=
  if ctxDoneBeforeHandoff then 1
  else repliesSent (runInner2 publish penv renv)

/-! ## AV1 format processor (formatprocessor package) -/

/-- The RTP header fields contributing to `Header.MarshalSize`: 12 fixed
bytes, 4 per CSRC, and, when the extension flag is set, 4 bytes plus the
extension payload.  `timestamp` is carried for the reader callbacks. -/
structure RTPHeader where
  padding : Bool
  extensionFlag : Bool
  csrcCount : Nat
  extensionPayloadLen : Nat
  timestamp : Nat
  deriving DecidableEq, Repr

/-- `rtp.Header.MarshalSize`. -/
def RTPHeader.marshalSize (h : RTPHeader) : Nat :=
  12 + 4 * h.csrcCount + (if h.extensionFlag then 4 + h.extensionPayloadLen else 0)

/-- An RTP packet: header, payload length and padding size, the parts that
`Packet.MarshalSize` adds up. -/
structure RTPPacket where
  header : RTPHeader
  payloadLen : Nat
  paddingSize : Nat
  deriving DecidableEq, Repr

/-- `rtp.Packet.MarshalSize`: header size + payload length + padding size. -/
def RTPPacket.marshalSize (p : RTPPacket) : Nat :=
  p.header.marshalSize + p.payloadLen + p.paddingSize

/-- The padding clearing `ProcessRTPPacket` performs before measuring:
`pkt.Header.Padding = false; pkt.PaddingSize = 0`. -/
def clearPadding (p : RTPPacket) : RTPPacket :=
  { p with header := { p.header with padding := false }, paddingSize := 0 }

/-- An AV1 temporal unit: a list of OBUs, each a byte list. -/
abbrev AV1TU : Type := List (List Nat)

/-- What `rtpav1.Decoder.Decode` can report, as `ProcessRTPPacket`
distinguishes the outcomes. -/
inductive AV1DecodeOutcome where
  | decoded (tu : AV1TU)
  | errNonStartingPacketAndNoPrevious
  | errMorePacketsNeeded
  | errOther
  deriving DecidableEq, Repr

/-- The `unit.AV1` the processor builds: the raw RTP packets, the PTS, and
the decoded temporal unit (`none` when not decoded). -/
structure AV1Unit where
  rtpPackets : List RTPPacket
  pts : Int
  tu : Option AV1TU
  deriving DecidableEq, Repr

/-- The `formatProcessorAV1` state `ProcessRTPPacket` reads: the configured
`udpMaxPayloadSize` and whether a decoder already exists. -/
structure FormatProcessorAV1 where
  udpMaxPayloadSize : Nat
  hasDecoder : Bool
  deriving DecidableEq, Repr

/-- `formatProcessorAV1.ProcessRTPPacket` (part_000:68-115).  The unit is
built around the packet (whose padding the function clears in place), then:
oversize packets fail; when a decoder is wanted it is created on demand
(`createDecoderOk` is that step's outcome) and run (`decode` its outcome) —
the two non-starting/more-packets-needed errors route the unit as is with
`tu = none`, other errors fail; without readers wanting decode, the unit is
routed as is. -/
def processRTPPacketAV1 (t : FormatProcessorAV1) (pkt : RTPPacket) (pts : Int)
    (hasNonRTSPReaders : Bool) (createDecoderOk : Bool)
    (decode : AV1DecodeOutcome) : Except String AV1Unit :=
  let pkt := clearPadding pkt
  let u : AV1Unit := { rtpPackets := [pkt], pts := pts, tu := none }
  if pkt.marshalSize > t.udpMaxPayloadSize then
    .error "payload size is greater than maximum allowed"
  else if hasNonRTSPReaders || t.hasDecoder then
    if !t.hasDecoder && !createDecoderOk then
      .error "decoder creation failed"
    else
      match decode with
      | .decoded tu => .ok { u with tu := some tu }
      | .errNonStartingPacketAndNoPrevious => .ok u
      | .errMorePacketsNeeded => .ok u
      | .errOther => .error "decode error"
  else
    .ok u

/-! ## WebRTC reader callbacks (webrtc package: findVideoTrack) -/

/-- What one invocation of a per-unit reader callback did: whether the
encoder ran, whether packets were written to the outgoing track, and the
error the callback returned (`none` is Go's nil). -/
structure CallbackEffect where
  encoded : Bool
  written : Bool
  result : Option String
  deriving DecidableEq, Repr

/-- The AV1 reader callback installed by `findVideoTrack` (part_001:55-73):
a unit with `TU == nil` returns nil at once, without encoding; otherwise the
TU is encoded (`encodeOk` the encoder's outcome — failures return nil
silently) and on success the packets are written to the track. -/
def webrtcAV1ReaderOnUnit (encodeOk : Bool) (u : AV1Unit) : CallbackEffect :=
  match u.tu with
  | none => { encoded := false, written := false, result := none }
  | some _ =>
    if encodeOk then { encoded := true, written := true, result := none }
    else { encoded := true, written := false, result := none }

/-- An H264 access unit: a list of NALUs, each a byte list. -/
abbrev H264AU : Type := List (List Nat)

/-- The `unit.H264` fields the callback reads: the access unit (`none` is
Go's nil) and the PTS. -/
structure H264Unit where
  au : Option H264AU
  pts : Int
  deriving DecidableEq, Repr

/-- The closure state of the H264 reader callback: the `firstReceived` flag
and `lastPTS`. -/
structure H264ReaderState where
  firstReceived : Bool
  lastPTS : Int
  deriving DecidableEq, Repr

/-- The closure state at installation time: `firstReceived := false`,
`lastPTS` zero-valued. -/
def h264ReaderInit : H264ReaderState :=
  { firstReceived := false, lastPTS := 0 }

/-- The error returned on PTS regression. -/
def bFramesErrMsg : String := "WebRTC doesn\'t support H264 streams with B-frames"

/-- One invocation of the H264 reader callback installed by `findVideoTrack`
(part_001:169-197): nil AU returns nil untouched; the first non-nil AU flips
`firstReceived`; afterwards a PTS strictly below `lastPTS` returns the
B-frames error before `lastPTS` is updated; otherwise `lastPTS` is updated
and the AU is encoded (failures return nil without writing) and written. -/
def webrtcH264ReaderOnUnit (encodeOk : Bool) (st : H264ReaderState) (u : H264Unit) :
    H264ReaderState × CallbackEffect :=
  match u.au with
  | none => (st, { encoded := false, written := false, result := none })
  | some _ =>
    if !st.firstReceived then
      ({ firstReceived := true, lastPTS := u.pts },
       if encodeOk then { encoded := true, written := true, result := none }
       else { encoded := true, written := false, result := none })
    else if u.pts < st.lastPTS then
      (st, { encoded := false, written := false, result := some bFramesErrMsg })
    else
      ({ st with lastPTS := u.pts },
       if encodeOk then { encoded := true, written := true, result := none }
       else { encoded := true, written := false, result := none })

/-! ## Helper lemmas -/

/-- In `runPublish`, the SDP answer and a nonzero error status are mutually
exclusive and one of them always occurs. -/
theorem runPublish_reply_shape (env : PublishEnv) :
    ((runPublish env).answerSent = true ∧ (runPublish env).errStatusCode = 0) ∨
    ((runPublish env).answerSent = false ∧ (runPublish env).errStatusCode ≠ 0) := by
  unfold runPublish
  rcases env with ⟨ape, g, p, sd, t, c, w, ga, st⟩
  rcases ape with _ | e
  · cases g <;> cases p <;> cases sd <;> cases t <;> cases c <;> simp
  · rcases e <;> simp [webrtcRunPublishErrReply]

/-- In `runRead`, the SDP answer and a nonzero error status are mutually
exclusive and one of them always occurs. -/
theorem runRead_reply_shape (env : ReadEnv) :
    ((runRead env).answerSent = true ∧ (runRead env).errStatusCode = 0) ∨
    ((runRead env).answerSent = false ∧ (runRead env).errStatusCode ≠ 0) := by
  unfold runRead
  rcases env with ⟨are, g, p, h, so, c, w, v, a⟩
  rcases are with _ | e
  · cases g <;> cases p <;> cases h <;> cases so <;> cases c <;> simp
  · rcases e <;> simp [webrtcRunReadErrReply]

/-! ## Claim theorems -/

/-- C1: every critically failing publish or read authorization (credentials
supplied and rejected) is answered only after the fixed two-second back-off
`pauseAfterAuthError`, in the RTSP `OnAnnounce` and `OnSetup` handlers and in
the WebRTC `runPublish` and `runRead`; every non-critical authorization
failure (credentials missing / challenge expected) is answered immediately
with no delay. -/
theorem auth_failure_backoff_policy :
    pauseAfterAuthError = 2 * 1000000000 ∧
    (∀ resp msg, rtspOnAnnounceErrReply (.authCritical resp msg) =
      { delay := pauseAfterAuthError, status := resp, errReturned := true }) ∧
    (∀ resp, rtspOnAnnounceErrReply (.authNotCritical resp) =
      { delay := 0, status := resp, errReturned := false }) ∧
    (∀ resp msg, rtspOnSetupErrReply (.authCritical resp msg) =
      { delay := pauseAfterAuthError, status := resp, errReturned := true }) ∧
    (∀ resp, rtspOnSetupErrReply (.authNotCritical resp) =
      { delay := 0, status := resp, errReturned := false }) ∧
    webrtcRunPublishErrReply .authenticationErr =
      { delay := pauseAfterAuthError, status := 401, errReturned := true } ∧
    webrtcRunReadErrReply .authenticationErr =
      { delay := pauseAfterAuthError, status := 401, errReturned := true } :=
  ⟨rfl, fun _ _ => rfl, fun _ => rfl, fun _ _ => rfl, fun _ => rfl, rfl, rfl⟩

/-- C2: every `webRTCNewSessionReq` submitted through `session.new` receives
exactly one terminal reply, whatever the session's collaborators do: one
terminated error when the context is cancelled before the hand-off, and
afterwards exactly one of the SDP answer (`writeAnswer`) or the error
response sent iff `runInner2` returned a nonzero status code. -/
theorem webrtc_new_session_exactly_one_reply (ctxDone publish : Bool)
    (penv : PublishEnv) (renv : ReadEnv) :
    sessionNewReplies ctxDone publish penv renv = 1 ∧
    (((runInner2 publish penv renv).answerSent = true ∧
        (runInner2 publish penv renv).errStatusCode = 0) ∨
      ((runInner2 publish penv renv).answerSent = false ∧
        (runInner2 publish penv renv).errStatusCode ≠ 0)) := by
  have hshape :
      ((runInner2 publish penv renv).answerSent = true ∧
        (runInner2 publish penv renv).errStatusCode = 0) ∨
      ((runInner2 publish penv renv).answerSent = false ∧
        (runInner2 publish penv renv).errStatusCode ≠ 0) := by
    unfold runInner2
    cases publish
    · simpa using runRead_reply_shape renv
    · simpa using runPublish_reply_shape penv
  refine ⟨?_, hshape⟩
  unfold sessionNewReplies
  cases ctxDone
  · rcases hshape with ⟨h1, h2⟩ | ⟨h1, h2⟩ <;> simp [repliesSent, h1, h2]
  · simp

/-- C3: a reload whose new configuration differs from the current one only
in the path set keeps the path manager alive and invokes
`ReloadPathConfs(newConf.Paths)` on it; the manager is closed and recreated
exactly when one of the manager-level settings (log level, external
authentication URL, RTSP address, auth methods, read/write timeouts, write
queue size, UDP max payload size) changes or the metrics/logger components
are torn down. -/
theorem reload_paths_only_keeps_path_manager (cur : Conf)
    (newPaths : List (String × PathConf)) (h : newPaths ≠ cur.paths) :
    reloadConfPathManagerAction { cur with paths := newPaths } cur =
      .reloadPathConfs ∧
    ∀ nc : Conf,
      (reloadConfPathManagerAction nc cur = .closeAndRecreate ↔
        (nc.logLevel ≠ cur.logLevel ∨
         nc.externalAuthenticationURL ≠ cur.externalAuthenticationURL ∨
         nc.rtspAddress ≠ cur.rtspAddress ∨
         nc.authMethods ≠ cur.authMethods ∨
         nc.readTimeout ≠ cur.readTimeout ∨
         nc.writeTimeout ≠ cur.writeTimeout ∨
         nc.writeQueueSize ≠ cur.writeQueueSize ∨
         nc.udpMaxPayloadSize ≠ cur.udpMaxPayloadSize ∨
         closeMetrics (some nc) cur = true ∨
         closeLogger (some nc) cur = true)) := by
  constructor
  · simp [reloadConfPathManagerAction, closePathManager, closeMetrics, closeLogger, h]
  · intro nc
    have hiff : closePathManager (some nc) cur = true ↔
        (nc.logLevel ≠ cur.logLevel ∨
         nc.externalAuthenticationURL ≠ cur.externalAuthenticationURL ∨
         nc.rtspAddress ≠ cur.rtspAddress ∨
         nc.authMethods ≠ cur.authMethods ∨
         nc.readTimeout ≠ cur.readTimeout ∨
         nc.writeTimeout ≠ cur.writeTimeout ∨
         nc.writeQueueSize ≠ cur.writeQueueSize ∨
         nc.udpMaxPayloadSize ≠ cur.udpMaxPayloadSize ∨
         closeMetrics (some nc) cur = true ∨
         closeLogger (some nc) cur = true) := by
      simp only [closePathManager, Bool.or_eq_true, decide_eq_true_eq, ne_eq, or_assoc]
    have hact : reloadConfPathManagerAction nc cur = .closeAndRecreate ↔
        closePathManager (some nc) cur = true := by
      unfold reloadConfPathManagerAction
      by_cases hc : closePathManager (some nc) cur = true
      · simp [hc]
      · simp only [Bool.not_eq_true] at hc
        simp only [hc, Bool.false_eq_true, if_false]
        constructor
        · intro habs
          exfalso
          revert habs
          split <;> simp
        · intro habs
          simp at habs
    exact hact.trans hiff


/-- A configuration at the sample defaults: every validated field passes. -/
def sampleConf : Conf :=
  { logLevel := 1, logDestinations := ["stdout"], logFile := "",
    metrics := false, metricsAddress := "", readTimeout := 10,
    writeTimeout := 10, writeQueueSize := 512, udpMaxPayloadSize := 1472,
    externalAuthenticationURL := "", rtspAddress := ":8554",
    authMethods := [.basic], paths := [] }

/-- C3 witness: adding a path to the sample configuration triggers an
in-place `ReloadPathConfs` and no manager restart. -/
theorem reload_paths_only_keeps_path_manager_witness :
    reloadConfPathManagerAction
      { sampleConf with paths := [("cam1", { source := "publisher", record := false })] }
      sampleConf = .reloadPathConfs :=
  (reload_paths_only_keeps_path_manager sampleConf
    [("cam1", { source := "publisher", record := false })] (by decide)).1

/-- C4: a read request failing with `NoOnePublishing` is answered with a 404
not-found status and the requesting session is torn down: the RTSP `OnSetup`
handler answers `base.StatusNotFound` and hands the error to the library
(which closes the session), and the WebRTC `runRead` returns
`http.StatusNotFound` without an answer, after which `run` closes the
session. -/
theorem no_one_publishing_replies_not_found :
    rtspOnSetupErrReply .noOnePublishing =
      { delay := 0, status := 404, errReturned := true } ∧
    webrtcRunReadErrReply .noOnePublishing =
      { delay := 0, status := 404, errReturned := true } ∧
    ∀ env : ReadEnv, env.addReaderErr = some .noOnePublishing →
      runRead env = { errStatusCode := 404, answerSent := false } := by
  refine ⟨rfl, rfl, ?_⟩
  intro env h
  unfold runRead
  rw [h]
  rfl

/-- A read environment in which the path manager reports that no one is
publishing and every later collaborator step would succeed. -/
def noOnePublishingReadEnv : ReadEnv :=
  { addReaderErr := some .noOnePublishing, generateICEServersOk := true,
    pcStartOk := true, hasSupportedTrack := true, setupOutgoingTracksOk := true,
    createFullAnswerOk := true, waitUntilConnectedOk := true, videoSetupOk := true,
    audioSetupOk := true }

/-- C4 witness: the branch evaluated at one concrete environment. -/
theorem no_one_publishing_replies_not_found_witness :
    runRead noOnePublishingReadEnv = { errStatusCode := 404, answerSent := false } :=
  no_one_publishing_replies_not_found.2.2 noOnePublishingReadEnv rfl

/-- A configuration that passes validation, when its path set does: the
conditions the checked configurations vary are at their defaults. -/
theorem confValidate_ok_conditions (c : Conf) (hok : confValidate c = .ok ()) :
    isPowerOfTwo c.writeQueueSize = true ∧
    c.udpMaxPayloadSize ≤ 1472 ∧
    ¬(c.externalAuthenticationURL ≠ "" ∧ AuthMethod.digest ∈ c.authMethods) ∧
    wildcardCount c.paths ≤ 1 := by
  unfold confValidate at hok
  split at hok
  · simp at hok
  · split at hok
    · simp at hok
    · split at hok
      · simp at hok
      · split at hok
        · simp at hok
        · rename_i h1 h2 h3 h4
          refine ⟨by simpa using h1, by omega, by simpa using h3, by omega⟩

/-- C5: a configuration whose path set contains more than one of the
wildcard names `all`, `all_others` and `~^.*$` is rejected by load — with
the error "all_others, all and \'~^.*$\' are aliases" once the checks ahead
of it pass — and a configuration that loads holds at most one wildcard. -/
theorem conf_load_rejects_coexisting_wildcards (c : Conf) :
    (1 < wildcardCount c.paths →
      (∃ e, confValidate c = .error e) ∧
      (isPowerOfTwo c.writeQueueSize = true → c.udpMaxPayloadSize ≤ 1472 →
        (c.externalAuthenticationURL = "" ∨ AuthMethod.digest ∉ c.authMethods) →
        confValidate c = .error "all_others, all and \'~^.*$\' are aliases")) ∧
    (confValidate c = .ok () → wildcardCount c.paths ≤ 1) := by
  constructor
  · intro hw
    constructor
    · rcases hval : confValidate c with e | u
      · exact ⟨e, rfl⟩
      · cases u
        have := (confValidate_ok_conditions c hval).2.2.2
        omega
    · intro h1 h2 h3
      have hudp : ¬(c.udpMaxPayloadSize > 1472) := by omega
      have hcond : ¬(c.externalAuthenticationURL ≠ "" ∧ AuthMethod.digest ∈ c.authMethods) := by
        rcases h3 with h3 | h3
        · exact fun hc => hc.1 h3
        · exact fun hc => h3 hc.2
      unfold confValidate
      rw [if_neg (by simp [h1]), if_neg hudp, if_neg (by simpa using hcond), if_pos hw]
  · intro hok
    exact (confValidate_ok_conditions c hok).2.2.2

/-- C5 witness: a configuration with both `all` and `all_others` is refused
with the test's message. -/
theorem conf_load_rejects_coexisting_wildcards_witness :
    confValidate
      { sampleConf with
        paths := [("all", { source := "publisher", record := false }),
                  ("all_others", { source := "publisher", record := false })] } =
      .error "all_others, all and \'~^.*$\' are aliases" :=
  ((conf_load_rejects_coexisting_wildcards _).1 (by decide)).2 (by decide) (by decide)
    (Or.inl rfl)

/-- C6: a configuration whose `writeQueueSize` is not a power of two is
rejected by load with the error "\'writeQueueSize\' must be a power of two",
so the async writer queue built from any loaded configuration has
power-of-two capacity. -/
theorem conf_load_enforces_power_of_two_queue (c : Conf) :
    (isPowerOfTwo c.writeQueueSize = false →
      confValidate c = .error "\'writeQueueSize\' must be a power of two") ∧
    (confValidate c = .ok () →
      isPowerOfTwo (asyncWriterQueueCapacity c) = true) := by
  constructor
  · intro h
    simp [confValidate, h]
  · intro hok
    exact (confValidate_ok_conditions c hok).1

/-- C6 witness: `writeQueueSize: 1001` is refused with the test's message. -/
theorem conf_load_enforces_power_of_two_queue_witness :
    confValidate { sampleConf with writeQueueSize := 1001 } =
      .error "\'writeQueueSize\' must be a power of two" :=
  (conf_load_enforces_power_of_two_queue _).1 (by decide)

/-- C7: a configuration carrying both an external authentication URL and the
`digest` auth method is rejected by load — with the error
"\'externalAuthenticationURL\' can\'t be used when \'digest\' is in
authMethods" once the checks ahead of it pass — and the two never coexist in
a configuration that loads. -/
theorem conf_load_rejects_digest_with_external_url (c : Conf) :
    (c.externalAuthenticationURL ≠ "" → AuthMethod.digest ∈ c.authMethods →
      ∃ e, confValidate c = .error e) ∧
    (isPowerOfTwo c.writeQueueSize = true → c.udpMaxPayloadSize ≤ 1472 →
      c.externalAuthenticationURL ≠ "" → AuthMethod.digest ∈ c.authMethods →
      confValidate c =
        .error "\'externalAuthenticationURL\' can\'t be used when \'digest\' is in authMethods") ∧
    (confValidate c = .ok () →
      ¬(c.externalAuthenticationURL ≠ "" ∧ AuthMethod.digest ∈ c.authMethods)) := by
  refine ⟨?_, ?_, ?_⟩
  · intro h1 h2
    rcases hval : confValidate c with e | u
    · exact ⟨e, rfl⟩
    · cases u
      exact absurd ⟨h1, h2⟩ (confValidate_ok_conditions c hval).2.2.1
  · intro h0 hudp h1 h2
    have hudp2 : ¬(c.udpMaxPayloadSize > 1472) := by omega
    simp [confValidate, h0, hudp2, h1, h2]
  · intro hok
    exact (confValidate_ok_conditions c hok).2.2.1

/-- C7 witness: `externalAuthenticationURL: http://myurl` together with
`authMethods: [digest]` is refused with the test's message. -/
theorem conf_load_rejects_digest_with_external_url_witness :
    confValidate { sampleConf with
        externalAuthenticationURL := "http://myurl", authMethods := [.digest] } =
      .error "\'externalAuthenticationURL\' can\'t be used when \'digest\' is in authMethods" :=
  (conf_load_rejects_digest_with_external_url _).2.1 (by decide) (by decide)
    (by decide) (by decide)

/-- C8: an incoming RTP packet whose marshalled size, measured after the
padding flag and padding size are cleared, exceeds `udpMaxPayloadSize` makes
`formatProcessorAV1.ProcessRTPPacket` return a nil unit and an error,
whatever the reader set and decoder state: the packet is neither decoded nor
routed. -/
theorem av1_oversize_rtp_packet_rejected (t : FormatProcessorAV1)
    (pkt : RTPPacket) (pts : Int) (hasNonRTSPReaders createDecoderOk : Bool)
    (decode : AV1DecodeOutcome)
    (h : (clearPadding pkt).marshalSize > t.udpMaxPayloadSize) :
    processRTPPacketAV1 t pkt pts hasNonRTSPReaders createDecoderOk decode =
      .error "payload size is greater than maximum allowed" := by
  unfold processRTPPacketAV1
  simp [h]

/-- An RTP packet whose marshalled size is 112 bytes once the processor has
cleared its padding: 12 header bytes plus a 100-byte payload, the 5 padding
bytes removed. -/
def oversizeSamplePkt : RTPPacket :=
  { header := { padding := true, extensionFlag := false, csrcCount := 0,
                extensionPayloadLen := 0, timestamp := 0 },
    payloadLen := 100, paddingSize := 5 }

/-- C8 witness: a 112-byte packet against a 10-byte maximum is refused. -/
theorem av1_oversize_rtp_packet_rejected_witness :
    processRTPPacketAV1 { udpMaxPayloadSize := 10, hasDecoder := false }
      oversizeSamplePkt 0 false true (.decoded [[1]]) =
      .error "payload size is greater than maximum allowed" :=
  av1_oversize_rtp_packet_rejected _ _ _ _ _ _ (by decide)

/-- C9: when the AV1 RTP decoder reports `ErrNonStartingPacketAndNoPrevious`
or `ErrMorePacketsNeeded`, `ProcessRTPPacket` returns the unit with `TU =
nil` still carrying the (padding-cleared) raw RTP packet and no error; and
the WebRTC AV1 reader callback returns nil without encoding or writing
whenever a delivered unit's `TU` is nil. -/
theorem av1_partial_decode_routes_raw_unit (t : FormatProcessorAV1)
    (pkt : RTPPacket) (pts : Int) (hasNonRTSPReaders createDecoderOk : Bool)
    (decode : AV1DecodeOutcome)
    (hsize : ¬((clearPadding pkt).marshalSize > t.udpMaxPayloadSize))
    (hcreate : t.hasDecoder = true ∨ createDecoderOk = true)
    (hout : decode = .errNonStartingPacketAndNoPrevious ∨
      decode = .errMorePacketsNeeded) :
    processRTPPacketAV1 t pkt pts hasNonRTSPReaders createDecoderOk decode =
      .ok { rtpPackets := [clearPadding pkt], pts := pts, tu := none } ∧
    ∀ (encodeOk : Bool) (u : AV1Unit), u.tu = none →
      webrtcAV1ReaderOnUnit encodeOk u =
        { encoded := false, written := false, result := none } := by
  constructor
  · unfold processRTPPacketAV1
    have hc : (!t.hasDecoder && !createDecoderOk) = false := by
      rcases hcreate with h | h <;> simp [h]
    rcases hout with h | h <;>
      rcases hb : (hasNonRTSPReaders || t.hasDecoder) with _ | _ <;>
        simp [hsize, hb, hc, h]
  · intro encodeOk u hu
    unfold webrtcAV1ReaderOnUnit
    rw [hu]

/-- A small RTP packet: 12 header bytes and a 50-byte payload. -/
def smallSamplePkt : RTPPacket :=
  { header := { padding := false, extensionFlag := false, csrcCount := 0,
                extensionPayloadLen := 0, timestamp := 0 },
    payloadLen := 50, paddingSize := 0 }

/-- C9 witness: a fragment-start error routes the raw unit unchanged. -/
theorem av1_partial_decode_routes_raw_unit_witness :
    processRTPPacketAV1 { udpMaxPayloadSize := 1472, hasDecoder := true }
      smallSamplePkt 0 false true .errNonStartingPacketAndNoPrevious =
      .ok { rtpPackets := [clearPadding smallSamplePkt], pts := 0, tu := none } :=
  (av1_partial_decode_routes_raw_unit _ _ _ _ _ _ (by decide) (Or.inl rfl)
    (Or.inl rfl)).1

/-- C10: the H264 reader callback installed by `findVideoTrack` ignores
units with a nil access unit, accepts the first unit with a non-nil one
unconditionally, and afterwards returns the error "WebRTC doesn\'t support
H264 streams with B-frames" exactly when a unit's PTS is strictly below the
previously accepted unit's PTS (which the closure keeps in `lastPTS`,
untouched by rejected units); accepted units are encoded and, when the
encoder succeeds, written to the outgoing track. -/
theorem h264_reader_bframes_policy (encodeOk : Bool) (st : H264ReaderState)
    (u : H264Unit) :
    (u.au = none →
      webrtcH264ReaderOnUnit encodeOk st u =
        (st, { encoded := false, written := false, result := none })) ∧
    (st.firstReceived = false → u.au ≠ none →
      (webrtcH264ReaderOnUnit encodeOk st u).2.result = none) ∧
    (st.firstReceived = true → u.au ≠ none →
      ((webrtcH264ReaderOnUnit encodeOk st u).2.result = some bFramesErrMsg ↔
        u.pts < st.lastPTS)) ∧
    (u.au ≠ none → (webrtcH264ReaderOnUnit encodeOk st u).2.result = none →
      (webrtcH264ReaderOnUnit encodeOk st u).1 =
        { firstReceived := true, lastPTS := u.pts }) ∧
    ((webrtcH264ReaderOnUnit encodeOk st u).2.result = some bFramesErrMsg →
      (webrtcH264ReaderOnUnit encodeOk st u).1 = st) ∧
    (encodeOk = true → u.au ≠ none →
      (webrtcH264ReaderOnUnit encodeOk st u).2.result = none →
      (webrtcH264ReaderOnUnit encodeOk st u).2.encoded = true ∧
      (webrtcH264ReaderOnUnit encodeOk st u).2.written = true) := by
  rcases st with ⟨fr, lp⟩
  rcases u with ⟨au, upts⟩
  rcases au with _ | a <;> cases fr <;> cases encodeOk <;>
    by_cases hp : upts < lp <;>
      simp [webrtcH264ReaderOnUnit, hp]

/-- C10 witness: after a unit at PTS 5 was accepted, a unit at PTS 3 is
rejected with the B-frames error. -/
theorem h264_reader_bframes_policy_witness :
    (webrtcH264ReaderOnUnit true { firstReceived := true, lastPTS := 5 }
        { au := some [[1]], pts := 3 }).2.result = some bFramesErrMsg :=
  ((h264_reader_bframes_policy true { firstReceived := true, lastPTS := 5 }
      { au := some [[1]], pts := 3 }).2.2.1 rfl (by decide)).mpr (by decide)
